import Mathlib

/-!
Shallow embedding of `src/main.py` (a MicroPython LoRaWAN connectivity
test script for LoPy boards) and proofs about its behaviour.

Modelling conventions:
* LED flash durations are measured in tenths of a second (the script
  passes floats such as 0.1 or 0.9 to `flash_led`; 0.1 s becomes 1).
* `lora.stats()` returns a fixed-layout tuple; we embed it as a
  structure whose fields follow the tuple order of the pycom firmware:
  index 0 `rx_timestamp`, 1 `rssi`, 2 `snr`, 3 `sfrx`, 4 `sftx`,
  5 `tx_trials`, 6 `tx_power`, 7 `tx_time_on_air`, 8 `tx_counter`,
  9 `tx_frequency`.
* The event bitmask values follow the pycom firmware:
  `RX_PACKET_EVENT = 1`, `TX_PACKET_EVENT = 2`, `TX_FAILED_EVENT = 4`.
* Side effects (console prints, LED activity, socket calls) are
  recorded as an explicit list of `Action`s.
* Python exceptions are embedded with `Except`: the handler's unbound
  local `msg` raises `NameError`; `bytes([n])` raises `ValueError`
  when `n > 255` (MicroPython checks the byte range, and the script
  only catches `socket.timeout`).
-/

namespace LopyTest

/-- `LoRa.RX_PACKET_EVENT` bit of the event bitmask. -/
def RX_PACKET_EVENT : Nat := 1

/-- `LoRa.TX_PACKET_EVENT` bit of the event bitmask. -/
def TX_PACKET_EVENT : Nat := 2

/-- `LoRa.TX_FAILED_EVENT` bit of the event bitmask. -/
def TX_FAILED_EVENT : Nat := 4

def LED_OFF : Nat := 0x000000
def LED_BLUE : Nat := 0x0000ff
def LED_GREEN : Nat := 0x00ff00
def LED_RED : Nat := 0xff0000
def LED_YELLOW : Nat := 0x7f7f00
def LED_PINK : Nat := 0xFF0088

/-- `LORA_DR = const(2)` from the script. -/
def LORA_DR : Nat := 2

/-- `OTAA_JOIN_TIMEOUT = 30` from the script (seconds). -/
def OTAA_JOIN_TIMEOUT : Nat := 30

/-- `LORA_ACK = True` from the script. -/
def LORA_ACK : Bool := true

/-- Python exceptions that the script's own code can raise. -/
inductive PyError where
  | nameError
  | valueError
deriving DecidableEq, Repr

/-- The `lora.stats()` tuple, fields in tuple order (see header). -/
structure LoraStats where
  rx_timestamp : Int
  rssi : Int
  snr : Int
  sfrx : Int
  sftx : Int
  tx_trials : Int
  tx_power : Int
  tx_time_on_air : Int
  tx_counter : Int
  tx_frequency : Int
deriving DecidableEq, Repr

/-- An all-zero stats tuple, used for concrete evaluations. -/
def statsZero : LoraStats := ⟨0, 0, 0, 0, 0, 0, 0, 0, 0, 0⟩

/-- Observable side effects of the script, in program order. -/
inductive Action where
  | print (s : String)
  | flash (color onT pauseT rep : Nat)
  | rgb (color : Nat)
  | send (payload : List Nat)
  | recv
  | setBlocking (b : Bool)
  | setTimeout (secs : Nat)
  | sleep (tenths : Nat)
  | socketCreate
  | setDR (dr : Nat)
  | setConfirmed (b : Bool)
  | registerCallback
deriving DecidableEq, Repr

/-- `"LoRa stats: TX[sf={}, airtime={}ms, count={}, retries={}]".format(
    12-stats[4], stats[7], stats[8], stats[5])` -/
def txLine (st : LoraStats) : String :=
  let sf : Int := 12 - st.sftx
  let air : Int := st.tx_time_on_air
  let cnt : Int := st.tx_counter
  let rty : Int := st.tx_trials
  s!"LoRa stats: TX[sf={sf}, airtime={air}ms, count={cnt}, retries={rty}]"

/-- `" RX[sf={}, rssi={}dBm, snr={}dB]".format(12-stats[3], stats[1], stats[2])` -/
def rxLine (st : LoraStats) : String :=
  let sf : Int := 12 - st.sfrx
  let rs : Int := st.rssi
  let sn : Int := st.snr
  s!" RX[sf={sf}, rssi={rs}dBm, snr={sn}dB]"

/-- `"Warning: no ACK after {} attempts".format(stats[5])` -/
def warnLine (st : LoraStats) : String :=
  let rty : Int := st.tx_trials
  s!"Warning: no ACK after {rty} attempts"

/-- Result of one invocation of `event_handler`:
the lines it printed, the LED flashes it performed, the value of the
global `RX_EVENT` after the call, and whether `lora.stats()` was read. -/
structure HandlerOut where
  logs : List String
  flashes : List Action
  rxEvent : Bool
  statsRead : Bool
deriving DecidableEq, Repr

/-- Embedding of `event_handler(lora)` (src/main.py lines 49-65).

Inputs: `ack` is the global `LORA_ACK`, `rxEvent` the value of the
global `RX_EVENT` before the call, `events` the bitmask returned by
`lora.events()`, `st` the tuple returned by `lora.stats()`.

The local variable `msg` is only assigned under the
`events & TX_PACKET_EVENT` test; if a later statement reads `msg`
without that bit set, Python raises `NameError`.  That happens in the
`RX` branch (`msg += ...`, line 60) and at `print(msg)` (line 63). -/
def event_handler (ack rxEvent : Bool) (events : Nat) (st : LoraStats) :
    Except PyError HandlerOut :=
  if events = 0 then
    Except.ok ⟨[], [], rxEvent, false⟩
  else
    let txB : Bool := events &&& TX_PACKET_EVENT != 0
    let rxB : Bool := events &&& RX_PACKET_EVENT != 0
    let failB : Bool := events &&& TX_FAILED_EVENT != 0
    let msg0 : Option String := if txB then some (txLine st) else none
    let step : Except PyError (String × List Action × Bool) :=
      if (txB && ack) || rxB then
        match msg0 with
        | none => Except.error PyError.nameError
        | some m => Except.ok (m ++ rxLine st, [Action.flash LED_PINK 1 3 2], true)
      else
        match msg0 with
        | none => Except.error PyError.nameError
        | some m => Except.ok (m, [], rxEvent)
    match step with
    | Except.error e => Except.error e
    | Except.ok (m, fl, rxE) =>
        Except.ok ⟨m :: (if failB then [warnLine st] else []), fl, rxE, true⟩

/-- `bytes([n])`.  MicroPython checks the byte range and raises
`ValueError` for values outside `0..255` (the script never reduces the
counter modulo 256 before this call). -/
def bytesSingle (n : Nat) : Except PyError (List Nat) :=
  if n < 256 then Except.ok [n] else Except.error PyError.valueError

/-- Per-cycle outcome classification (src/main.py lines 140-145). -/
inductive Outcome where
  | acked
  | downlinkReceived
  | noDownlink
deriving DecidableEq, Repr

/-- The classification of lines 140-145: `RX_EVENT and len(rx_pkt) == 0`
gives an ACK, else a non-empty packet is a downlink, else nothing. -/
def classify (rxEvent : Bool) (rxPkt : List Nat) : Outcome :=
  if rxEvent && (rxPkt.length == 0) then Outcome.acked
  else if rxPkt.length > 0 then Outcome.downlinkReceived
  else Outcome.noDownlink

/-- Environment of one main-loop cycle: whether `s.send` raises
`socket.timeout`, what `s.recvfrom(64)` returns, and the value the
asynchronous `event_handler` left in `RX_EVENT` by classification time
(the loop sets `RX_EVENT = False` at the start of each cycle). -/
structure CycleEnv where
  sendTimesOut : Bool
  rxPkt : List Nat
  rxPort : Nat
  handlerFlag : Bool
deriving DecidableEq, Repr

/-- A cycle environment with no downlink and no send timeout. -/
def env0 : CycleEnv := ⟨false, [], 0, false⟩

/-- `"Sending uplink packet {} with SF{}{}...".format(counter,
    12-LORA_DR, ' asking for ACK' if LORA_ACK else '')` -/
def sendingLog (c : Nat) (ack : Bool) : String :=
  let sf : Nat := 12 - LORA_DR
  let tail : String := if ack then " asking for ACK" else ""
  s!"Sending uplink packet {c} with SF{sf}{tail}..."

/-- `"Received downlink packet on port {}: {}".format(rx_port, rx_pkt)` -/
def downlinkLog (port : Nat) (pkt : List Nat) : String :=
  let ps : String := toString pkt
  s!"Received downlink packet on port {port}: {ps}"

/-- Actions of a cycle up to and including the green flash that
precedes `s.send(bytes([counter]))` (lines 127-132). -/
def cyclePre (ack : Bool) (c : Nat) : List Action :=
  [Action.print (sendingLog c ack), Action.setBlocking true,
   Action.setTimeout 10, Action.flash LED_GREEN 1 3 2]

/-- The log line printed by the classification step. -/
def outcomeLog (env : CycleEnv) : String :=
  match classify env.handlerFlag env.rxPkt with
  | Outcome.acked => "ACK received."
  | Outcome.downlinkReceived => downlinkLog env.rxPort env.rxPkt
  | Outcome.noDownlink => "No downlink packet received."

/-- Actions of a cycle after the send attempt (lines 138-149): switch
to non-blocking, one receive, classification print, 1 s sleep, and the
29-repeat yellow flash that implements the 30-second cadence. -/
def cyclePost (env : CycleEnv) : List Action :=
  [Action.setBlocking false, Action.recv, Action.print (outcomeLog env),
   Action.sleep 10, Action.print "Waiting 30 seconds...",
   Action.flash LED_YELLOW 2 8 29]

/-- One iteration of the main loop body (lines 125-149), with `c` the
already-incremented counter.  Returns the actions performed and
`some outcome`, or the partial actions and `none` when
`bytes([counter])` raises `ValueError` (which only `socket.timeout`
handling surrounds, so the exception escapes the loop). -/
def cycleTrace (ack : Bool) (c : Nat) (env : CycleEnv) :
    List Action × Option Outcome :=
  match bytesSingle c with
  | Except.error _ => (cyclePre ack c, none)
  | Except.ok payload =>
      let mid : List Action :=
        if env.sendTimesOut then
          [Action.flash LED_RED 10 10 2, Action.print "Timeout!"]
        else
          [Action.send payload, Action.print "OK."]
      (cyclePre ack c ++ mid ++ cyclePost env,
       some (classify env.handlerFlag env.rxPkt))

/-- Result of running the main loop with bounded fuel. -/
inductive MainRes where
  | looping (counter : Nat) (trace : List Action)
  | exited (counter : Nat) (trace : List Action)
  | crashed (counter : Nat) (trace : List Action)
deriving DecidableEq, Repr

/-- The main loop `while True and lora.has_joined():` (lines 123-149).
`hj i` is the value of `lora.has_joined()` at the `i`-th guard
evaluation, `cenv i` the environment of the `i`-th cycle, `c` the
counter and `tr` the actions so far. -/
def runMain (ack : Bool) (hj : Nat → Bool) (cenv : Nat → CycleEnv) :
    Nat → Nat → Nat → List Action → MainRes
  | 0, _, c, tr => MainRes.looping c tr
  | fuel + 1, i, c, tr =>
    if hj i then
      match cycleTrace ack (c + 1) (cenv i) with
      | (ct, none) => MainRes.crashed (c + 1) (tr ++ ct)
      | (ct, some _) => runMain ack hj cenv fuel (i + 1) (c + 1) (tr ++ ct)
    else MainRes.exited c tr

/-- The payloads passed to `s.send` within a trace, in order. -/
def sendsOf (tr : List Action) : List (List Nat) :=
  tr.filterMap fun a =>
    match a with
    | Action.send p => some p
    | _ => none

/-- The OTAA join polling loop (lines 86-91).  `hj i` is the value of
`lora.has_joined()` at the `i`-th guard evaluation and `clock i` the
value of `ticks_diff(ticks_ms(), start_join)` (in ms) when the body of
iteration `i` recomputes `otaa_timer`.  Returns `(iterations, timer)`
at exit, or `none` if the fuel runs out while still polling. -/
def joinPoll (hj : Nat → Bool) (clock : Nat → Nat) :
    Nat → Nat → Nat → Option (Nat × Nat)
  | 0, _, _ => none
  | fuel + 1, i, timer =>
    if hj i = false ∧ timer < OTAA_JOIN_TIMEOUT then
      joinPoll hj clock fuel (i + 1) (clock i / 1000)
    else some (i, timer)

/-- Actions of one join-poll iteration: a progress dot and a short blue
flash (lines 90-91). -/
def joinDot : List Action :=
  [Action.print ".", Action.flash LED_BLUE 1 9 1]

/-- Result of the whole OTAA join block (lines 82-97). -/
structure JoinResult where
  joined : Bool
  timer : Nat
  iters : Nat
  trace : List Action
  joinCalls : Nat
deriving DecidableEq, Repr

/-- The OTAA join block: a single `lora.join(...)` call, the polling
loop, then the success or failure report (lines 84-97). -/
def otaaJoin (hj : Nat → Bool) (clock : Nat → Nat) (fuel : Nat) :
    Option JoinResult :=
  match joinPoll hj clock fuel 0 0 with
  | none => none
  | some (i, t) =>
      let head : List Action := [Action.print "Starting OTAA join..."]
      let dots : List Action := (List.replicate i joinDot).flatten
      if hj i then
        some ⟨true, t, i, head ++ dots ++
          [Action.print "OK.", Action.flash LED_BLUE 10 10 1], 1⟩
      else
        some ⟨false, t, i, head ++ dots ++
          [Action.print "timeout, failed!", Action.flash LED_RED 10 10 1], 1⟩

/-- Socket setup and callback registration (lines 111-120); these
statements sit after the whole `if LORA_OTAA ... else ...` block and
run whatever the join outcome was. -/
def setupActions : List Action :=
  [Action.socketCreate, Action.setDR LORA_DR,
   Action.setConfirmed LORA_ACK, Action.registerCallback]

/-- The OTAA-mode script from the join block to the end: join, socket
setup, main loop; when the loop exits through its guard the script's
final statement `pycom.rgbled(LED_RED)` (line 151) runs.  When the
loop escapes through an uncaught exception that final statement is
skipped, and `none` is returned only when the join polling fuel runs
out. -/
def script (hjp : Nat → Bool) (clock : Nat → Nat) (jf : Nat)
    (hjl : Nat → Bool) (cenv : Nat → CycleEnv) (lf : Nat) :
    Option (List Action) :=
  match otaaJoin hjp clock jf with
  | none => none
  | some jr =>
      let post : List Action :=
        match runMain LORA_ACK hjl cenv lf 0 0 [] with
        | MainRes.exited _ tr => tr ++ [Action.rgb LED_RED]
        | MainRes.looping _ tr => tr
        | MainRes.crashed _ tr => tr
      some (jr.trace ++ setupActions ++ post)

theorem sendsOf_append (l1 l2 : List Action) :
    sendsOf (l1 ++ l2) = sendsOf l1 ++ sendsOf l2 :=
  List.filterMap_append l1 l2 _

theorem sendsOf_cyclePre (ack : Bool) (c : Nat) :
    sendsOf (cyclePre ack c) = [] := rfl

theorem sendsOf_cyclePost (env : CycleEnv) :
    sendsOf (cyclePost env) = [] := rfl

theorem cycle_env0 (ack : Bool) (c : Nat) (h : c < 256) :
    cycleTrace ack c env0 =
      (cyclePre ack c ++ [Action.send [c], Action.print "OK."] ++ cyclePost env0,
       some (classify false [])) := by
  simp [cycleTrace, bytesSingle, h, env0]

theorem cycle_crash (ack : Bool) : cycleTrace ack 256 env0 = (cyclePre ack 256, none) := rfl

theorem runMain_crash (fuel : Nat) :
    ∀ (i c : Nat) (tr : List Action), c ≤ 255 → 256 ≤ c + fuel →
      ∃ tr2, runMain true (fun _ => true) (fun _ => env0) fuel i c tr =
          MainRes.crashed 256 tr2 ∧
        sendsOf tr2 = sendsOf tr ++ (List.range' (c + 1) (255 - c)).map (fun v => [v]) := by
  induction fuel with
  | zero =>
    intro i c tr h1 h2
    omega
  | succ fuel ih =>
    intro i c tr h1 h2
    by_cases hc : c = 255
    · subst hc
      refine ⟨tr ++ cyclePre true 256, ?_, ?_⟩
      · simp [runMain, cycle_crash]
      · simp [sendsOf_append, sendsOf_cyclePre]
    · have hlt : c + 1 < 256 := by omega
      have hstep :
          runMain true (fun _ => true) (fun _ => env0) (fuel + 1) i c tr =
            runMain true (fun _ => true) (fun _ => env0) fuel (i + 1) (c + 1)
              (tr ++ (cyclePre true (c + 1) ++
                [Action.send [c + 1], Action.print "OK."] ++ cyclePost env0)) := by
        simp [runMain, cycle_env0 true (c + 1) hlt]
      obtain ⟨tr2, hrun, hsends⟩ :=
        ih (i + 1) (c + 1)
          (tr ++ (cyclePre true (c + 1) ++
            [Action.send [c + 1], Action.print "OK."] ++ cyclePost env0))
          (by omega) (by omega)
      refine ⟨tr2, by rw [hstep]; exact hrun, ?_⟩
      rw [hsends, sendsOf_append]
      rw [sendsOf_append, sendsOf_append, sendsOf_cyclePre, sendsOf_cyclePost]
      have hr : 255 - c = (255 - (c + 1)) + 1 := by omega
      rw [hr, List.range'_succ]
      simp [sendsOf]

/-- C1: the spec claims the single-byte payload equals the counter
modulo 256 and wraps, so that after cycle 256 the payload byte is 0.
On the code, the counter is pre-incremented to 1 and the payload
equals the raw counter for cycles 1..255 (payloads `[1], ..., [255]`,
each one more than the last); at cycle 256 `bytes([256])` raises an
uncaught `ValueError`, the loop dies with the counter at 256, and no
cycle ever sends payload `[0]` — the payload never wraps. -/
theorem counter_overflow_crash :
    ∃ tr2, runMain true (fun _ => true) (fun _ => env0) 300 0 0 [] =
        MainRes.crashed 256 tr2 ∧
      sendsOf tr2 = (List.range' 1 255).map (fun v => [v]) ∧
      [0] ∉ sendsOf tr2 := by
  obtain ⟨tr2, h1, h2⟩ := runMain_crash 300 0 0 [] (by omega) (by omega)
  have h2' : sendsOf tr2 = (List.range' 1 255).map (fun v => [v]) := by
    rw [h2]
    simp [sendsOf]
  refine ⟨tr2, h1, h2', ?_⟩
  rw [h2']
  intro hmem
  obtain ⟨v, hv, hv0⟩ := List.mem_map.mp hmem
  have := List.mem_range'_1.mp hv
  simp at hv0
  omega

/-- C2: the spec claims `event_handler` never raises an error of its
own, for every combination of the three event bits.  In fact the local
`msg` is only assigned under the transmit-complete test, so a bitmask
with the receive-complete bit but not the transmit-complete bit
(`events = 1`), or with only the transmit-failed bit (`events = 4`),
raises `NameError` when `msg` is read. -/
theorem event_handler_rx_only_raises (ack rxE : Bool) (st : LoraStats) :
    event_handler ack rxE RX_PACKET_EVENT st = Except.error PyError.nameError ∧
    event_handler ack rxE TX_FAILED_EVENT st = Except.error PyError.nameError := by
  cases ack <;> exact ⟨rfl, rfl⟩

/-- C3: the classification step of every main-loop cycle yields
`Acked` iff the receive/ack flag is set and the receive returned zero
bytes, else `DownlinkReceived` iff the payload is non-empty
(regardless of the flag), else `NoDownlink`. -/
theorem classify_spec (flag : Bool) (pkt : List Nat) (ack : Bool) (c : Nat)
    (port : Nat) (sto : Bool) (h : c < 256) :
    (cycleTrace ack c ⟨sto, pkt, port, flag⟩).2 = some (classify flag pkt) ∧
    (classify flag pkt = Outcome.acked ↔ flag = true ∧ pkt = []) ∧
    (classify flag pkt = Outcome.downlinkReceived ↔ pkt ≠ []) ∧
    (classify flag pkt = Outcome.noDownlink ↔ flag = false ∧ pkt = []) := by
  refine ⟨by simp [cycleTrace, bytesSingle, h], ?_, ?_, ?_⟩ <;>
    cases flag <;> cases pkt <;> simp [classify]

theorem classify_spec_witness :
    (cycleTrace true 1 ⟨false, [], 0, true⟩).2 = some (classify true []) ∧
    (classify true [] = Outcome.acked ↔ true = true ∧ ([] : List Nat) = []) ∧
    (classify true [] = Outcome.downlinkReceived ↔ ([] : List Nat) ≠ []) ∧
    (classify true [] = Outcome.noDownlink ↔ true = false ∧ ([] : List Nat) = []) :=
  classify_spec true [] true 1 0 false (by omega)

/-- C4: on a transmit-complete event only (`events = 2`): with
acknowledgment disabled the handler logs exactly one line with the TX
stats and flashes nothing; with acknowledgment requested it logs one
line with both TX and RX stats and performs exactly one pink
double-flash. -/
theorem tx_event_report_spec (st : LoraStats) (rxE : Bool) :
    event_handler false rxE TX_PACKET_EVENT st =
      Except.ok ⟨[txLine st], [], rxE, true⟩ ∧
    event_handler true rxE TX_PACKET_EVENT st =
      Except.ok ⟨[txLine st ++ rxLine st],
        [Action.flash LED_PINK 1 3 2], true, true⟩ :=
  ⟨rfl, rfl⟩

/-- C5: with `events = 0` the handler returns immediately: no log
line, no LED activity, `lora.stats()` is not read, and the global
`RX_EVENT` keeps its previous value. -/
theorem no_events_noop (ack rxE : Bool) (st : LoraStats) :
    event_handler ack rxE 0 st = Except.ok ⟨[], [], rxE, false⟩ := rfl

theorem joinPoll_exit (hj : Nat → Bool) (clock : Nat → Nat) (fuel i t : Nat)
    (h : ¬ t < OTAA_JOIN_TIMEOUT) :
    joinPoll hj clock (fuel + 1) i t = some (i, t) := by
  simp [joinPoll, h]

theorem joinPoll_terminates (clock : Nat → Nat) (N : Nat)
    (hm : Monotone clock) (hN : OTAA_JOIN_TIMEOUT * 1000 ≤ clock N) :
    ∀ (k i t : Nat), N ≤ i + k →
      ∃ p, joinPoll (fun _ => false) clock (k + 2) i t = some p ∧
        OTAA_JOIN_TIMEOUT ≤ p.2 := by
  have hbig : ∀ j, N ≤ j → ¬ clock j / 1000 < OTAA_JOIN_TIMEOUT := by
    intro j hj hlt
    have h1 : OTAA_JOIN_TIMEOUT * 1000 ≤ clock j := le_trans hN (hm hj)
    have h2 : OTAA_JOIN_TIMEOUT ≤ clock j / 1000 :=
      (Nat.le_div_iff_mul_le (by omega)).mpr h1
    omega
  intro k
  induction k with
  | zero =>
    intro i t hik
    by_cases ht : t < OTAA_JOIN_TIMEOUT
    · refine ⟨(i + 1, clock i / 1000), ?_, ?_⟩
      · show joinPoll (fun _ => false) clock (1 + 1) i t = _
        rw [joinPoll, if_pos ⟨rfl, ht⟩]
        exact joinPoll_exit _ _ 0 _ _ (hbig i (by omega))
      · have := hbig i (by omega)
        omega
    · exact ⟨(i, t), joinPoll_exit _ _ 1 i t ht, by omega⟩
  | succ k ih =>
    intro i t hik
    by_cases ht : t < OTAA_JOIN_TIMEOUT
    · obtain ⟨p, hp, hp2⟩ := ih (i + 1) (clock i / 1000) (by omega)
      refine ⟨p, ?_, hp2⟩
      show joinPoll (fun _ => false) clock ((k + 2) + 1) i t = some p
      rw [joinPoll, if_pos ⟨rfl, ht⟩]
      exact hp
    · exact ⟨(i, t), joinPoll_exit _ _ (k + 2) i t ht, by omega⟩

/-- C6: in OTAA mode, if `has_joined()` never returns true and the
wall clock advances past the 30-second timeout, the polling loop
terminates with the elapsed-seconds counter at or past
`OTAA_JOIN_TIMEOUT`, the failure line is printed, and the join call is
not retried (the block performs exactly one `lora.join`). -/
theorem join_poll_timeout (clock : Nat → Nat) (N : Nat) (hm : Monotone clock)
    (hN : OTAA_JOIN_TIMEOUT * 1000 ≤ clock N) :
    ∃ r, otaaJoin (fun _ => false) clock (N + 2) = some r ∧
      r.joined = false ∧ OTAA_JOIN_TIMEOUT ≤ r.timer ∧
      Action.print "timeout, failed!" ∈ r.trace ∧ r.joinCalls = 1 := by
  obtain ⟨⟨i, t⟩, hp, ht⟩ := joinPoll_terminates clock N hm hN N 0 0 (by omega)
  have hoj : otaaJoin (fun _ => false) clock (N + 2) =
      some ⟨false, t, i,
        [Action.print "Starting OTAA join..."] ++
          (List.replicate i joinDot).flatten ++
          [Action.print "timeout, failed!", Action.flash LED_RED 10 10 1], 1⟩ := by
    simp [otaaJoin, hp]
  exact ⟨_, hoj, rfl, ht, by simp, rfl⟩

theorem join_poll_timeout_witness :
    ∃ r, otaaJoin (fun _ => false) (fun i => 30000 * i) 3 = some r ∧
      r.joined = false ∧ OTAA_JOIN_TIMEOUT ≤ r.timer ∧
      Action.print "timeout, failed!" ∈ r.trace ∧ r.joinCalls = 1 :=
  join_poll_timeout (fun i => 30000 * i) 1
    (fun _ _ h => Nat.mul_le_mul_left 30000 h) (by decide)

/-- C7: if `lora.has_joined()` is false when the main loop's entry
guard is evaluated, the loop body never executes: no uplink is sent,
no action is performed, and the transmission counter stays at 0. -/
theorem unjoined_loop_never_runs (ack : Bool) (hjl : Nat → Bool)
    (cenv : Nat → CycleEnv) (fuel : Nat) (h : hjl 0 = false) :
    runMain ack hjl cenv (fuel + 1) 0 0 [] = MainRes.exited 0 [] ∧
    sendsOf [] = ([] : List (List Nat)) := by
  refine ⟨?_, rfl⟩
  simp [runMain, h]

theorem unjoined_loop_never_runs_witness :
    runMain true (fun _ => false) (fun _ => env0) 1 0 0 [] =
      MainRes.exited 0 [] ∧
    sendsOf [] = ([] : List (List Nat)) :=
  unjoined_loop_never_runs true (fun _ => false) (fun _ => env0) 0 rfl

/-- C8: when the blocking send times out, the exception is caught at
the send statement, signalled with a long red double-flash and a
"Timeout!" line, and the cycle proceeds to the non-blocking receive
with exactly the same tail of actions and the same classification as
on a successful send. -/
theorem send_timeout_continues (ack : Bool) (c : Nat) (flag : Bool)
    (pkt : List Nat) (port : Nat) (h : c < 256) :
    cycleTrace ack c ⟨true, pkt, port, flag⟩ =
      (cyclePre ack c ++ [Action.flash LED_RED 10 10 2, Action.print "Timeout!"]
        ++ cyclePost ⟨true, pkt, port, flag⟩, some (classify flag pkt)) ∧
    cycleTrace ack c ⟨false, pkt, port, flag⟩ =
      (cyclePre ack c ++ [Action.send [c], Action.print "OK."]
        ++ cyclePost ⟨false, pkt, port, flag⟩, some (classify flag pkt)) ∧
    cyclePost ⟨true, pkt, port, flag⟩ = cyclePost ⟨false, pkt, port, flag⟩ ∧
    Action.recv ∈ cyclePost ⟨true, pkt, port, flag⟩ := by
  refine ⟨?_, ?_, rfl, by simp [cyclePost]⟩ <;>
    simp [cycleTrace, bytesSingle, h]

theorem send_timeout_continues_witness :
    cycleTrace true 1 ⟨true, [5], 7, false⟩ =
      (cyclePre true 1 ++ [Action.flash LED_RED 10 10 2, Action.print "Timeout!"]
        ++ cyclePost ⟨true, [5], 7, false⟩, some (classify false [5])) ∧
    cycleTrace true 1 ⟨false, [5], 7, false⟩ =
      (cyclePre true 1 ++ [Action.send [1], Action.print "OK."]
        ++ cyclePost ⟨false, [5], 7, false⟩, some (classify false [5])) ∧
    cyclePost ⟨true, [5], 7, false⟩ = cyclePost ⟨false, [5], 7, false⟩ ∧
    Action.recv ∈ cyclePost ⟨true, [5], 7, false⟩ :=
  send_timeout_continues true 1 false [5] 7 (by omega)

/-- C9: whenever the transmit-complete bit is set (so no exception can
occur) and the flag was cleared by the loop, the handler succeeds and
sets `RX_EVENT` to true exactly when `LORA_ACK` is true or the
receive-complete bit is also set, performing the pink double-flash in
exactly those cases — in particular on every completed transmit when
acknowledgments are requested, even with no receive event. -/
theorem tx_event_sets_rx_flag (ack : Bool) (events : Nat) (st : LoraStats)
    (h : events &&& TX_PACKET_EVENT ≠ 0) :
    ∃ out, event_handler ack false events st = Except.ok out ∧
      out.rxEvent = (ack || (events &&& RX_PACKET_EVENT != 0)) ∧
      out.flashes = (if (ack || (events &&& RX_PACKET_EVENT != 0)) = true then
        [Action.flash LED_PINK 1 3 2] else []) := by
  have hne : events ≠ 0 := by
    intro he
    rw [he] at h
    simp [TX_PACKET_EVENT] at h
  have htx : (events &&& TX_PACKET_EVENT != 0) = true := by
    simpa using h
  unfold event_handler
  rw [if_neg hne]
  simp only [htx, Bool.true_and]
  cases hc : (ack || (events &&& RX_PACKET_EVENT != 0)) <;>
    cases hf : (events &&& TX_FAILED_EVENT != 0) <;>
      simp [hc, hf]

theorem tx_event_sets_rx_flag_witness :
    ∃ out, event_handler true false 2 statsZero = Except.ok out ∧
      out.rxEvent = (true || (2 &&& RX_PACKET_EVENT != 0)) ∧
      out.flashes = (if (true || (2 &&& RX_PACKET_EVENT != 0)) = true then
        [Action.flash LED_PINK 1 3 2] else []) :=
  tx_event_sets_rx_flag true 2 statsZero (by decide)

/-- C10: in OTAA mode the socket creation, the data-rate and
confirmed-send socket options, and the callback registration run
whatever `JoinResult` the join block produced; and when the main loop
is never entered (guard false at its first evaluation) the script's
final action is setting the LED to solid red. -/
theorem setup_unconditional_and_final_red (hjp : Nat → Bool)
    (clock : Nat → Nat) (jf : Nat) (hjl : Nat → Bool)
    (cenv : Nat → CycleEnv) (lf c : Nat) (tr0 : List Action)
    (jr : JoinResult) (hj : otaaJoin hjp clock jf = some jr)
    (hrm : runMain LORA_ACK hjl cenv lf 0 0 [] = MainRes.exited c tr0) :
    ∃ tr, script hjp clock jf hjl cenv lf = some tr ∧
      tr = jr.trace ++ [Action.socketCreate, Action.setDR LORA_DR,
        Action.setConfirmed LORA_ACK, Action.registerCallback] ++
        tr0 ++ [Action.rgb LED_RED] ∧
      tr.getLast? = some (Action.rgb LED_RED) := by
  refine ⟨_, ?_, rfl, ?_⟩
  · simp [script, hj, hrm, setupActions, List.append_assoc]
  · exact List.getLast?_concat _

theorem setup_unconditional_and_final_red_witness :
    ∃ tr, script (fun _ => false) (fun i => 30000 * i) 3 (fun _ => false)
        (fun _ => env0) 1 = some tr ∧
      tr.getLast? = some (Action.rgb LED_RED) := by
  obtain ⟨tr, h1, h2, h3⟩ :=
    setup_unconditional_and_final_red (fun _ => false) (fun i => 30000 * i) 3
      (fun _ => false) (fun _ => env0) 1 0 []
      ⟨false, 30, 2, [Action.print "Starting OTAA join...", Action.print ".",
        Action.flash LED_BLUE 1 9 1, Action.print ".",
        Action.flash LED_BLUE 1 9 1, Action.print "timeout, failed!",
        Action.flash LED_RED 10 10 1], 1⟩
      (by decide) (by decide)
  exact ⟨tr, h1, h3⟩

end LopyTest
